import Mathlib

/-
Shallow embedding of the PDF viewer component (src/src/App.tsx and the
extended variant src/unnamed/part_000).  The component state is the React
state tuple {pdfDoc, pageNum, totalPages, scale, rotation, isLoadingUrl,
urlError} together with the file-input value and the list of alerts shown
so far.  JS numbers are modelled as Int (page numbers, rotation) and Rat
(scale); JS `%` on the non-negative operands appearing here is Int.tmod.
The external pdfjs library is an oracle: loads and renders are split into a
synchronous start phase and a finish phase taking the library outcome.
We embed the extended variant (part_000), which is a superset of App.tsx.
-/

namespace PdfViewer

/-- An opaque document handle returned by the library: identity plus
`numPages` (the only field the component reads). -/
structure Doc where
  id : Nat
  numPages : Int
deriving DecidableEq, Repr

/-- The component state: the React useState fields, the file-input value
(`fileInputRef.current.value`) and the alerts emitted so far. -/
structure ViewerState where
  pdfDoc : Option Doc
  pageNum : Int
  totalPages : Int
  scale : Rat
  rotation : Int
  isLoadingUrl : Bool
  urlError : Option String
  fileInputValue : String
  alerts : List String
deriving DecidableEq, Repr

/-- Initial state of the component (the useState initial values). -/
def initState : ViewerState :=
  { pdfDoc := none, pageNum := 1, totalPages := 0, scale := 1, rotation := 0,
    isLoadingUrl := false, urlError := none, fileInputValue := "", alerts := [] }

/-- goToPrevPage: `if (pageNum > 1) setPageNum(pageNum - 1)`. -/
def goToPrevPage (s : ViewerState) : ViewerState :=
  if s.pageNum > 1 then { s with pageNum := s.pageNum - 1 } else s

/-- goToNextPage: `if (pageNum < totalPages) setPageNum(pageNum + 1)`. -/
def goToNextPage (s : ViewerState) : ViewerState :=
  if s.pageNum < s.totalPages then { s with pageNum := s.pageNum + 1 } else s

/-- zoomIn: `setScale(Math.min(scale + 0.2, 3))`. -/
def zoomIn (s : ViewerState) : ViewerState :=
  { s with scale := min (s.scale + 1/5) 3 }

/-- zoomOut: `setScale(Math.max(scale - 0.2, 0.25))`. -/
def zoomOut (s : ViewerState) : ViewerState :=
  { s with scale := max (s.scale - 1/5) (1/4) }

/-- rotateClockwise: `setRotation((rotation + 90) % 360)` (JS truncated mod). -/
def rotateClockwise (s : ViewerState) : ViewerState :=
  { s with rotation := (s.rotation + 90).tmod 360 }

/-- rotateCounterClockwise: `setRotation((rotation - 90 + 360) % 360)`. -/
def rotateCounterClockwise (s : ViewerState) : ViewerState :=
  { s with rotation := (s.rotation - 90 + 360).tmod 360 }

/-- A selected file: the component only inspects its MIME `type`. -/
structure FileSel where
  type : String
deriving DecidableEq, Repr

/-- Synchronous phase of handleFileChange: MIME validation.  Returns the new
state and whether the FileReader was started.  Invalid selection (missing
file or wrong MIME type): alert, clear the input value, return early.
Valid: clear urlError and isLoadingUrl (extended variant), start the read. -/
def handleFileChangeStart (s : ViewerState) (file : Option FileSel) :
    ViewerState × Bool :=
  match file with
  | none =>
      ({ s with alerts := s.alerts ++ ["Please select a valid PDF file"],
                fileInputValue := "" }, false)
  | some f =>
      if f.type = "application/pdf" then
        ({ s with urlError := none, isLoadingUrl := false }, true)
      else
        ({ s with alerts := s.alerts ++ ["Please select a valid PDF file"],
                  fileInputValue := "" }, false)

/-- Outcome of the FileReader + getDocument pipeline for a file load. -/
inductive FileOutcome where
  | readError
  | emptyResult
  | loaded (d : Doc)
  | loadError (msg : String)
deriving Repr

/-- Asynchronous phase of handleFileChange: the reader.onload / reader.onerror
handlers, with the getDocument outcome.
readError (onerror): alert and clear the input value.
emptyResult (e.target.result missing): alert only.
loaded: commit pdf, totalPages, page 1, scale 1.0, rotation 0.
loadError: alert, clear the input value, clear pdfDoc and totalPages. -/
def handleFileChangeFinish (s : ViewerState) (o : FileOutcome) : ViewerState :=
  match o with
  | .readError =>
      { s with alerts := s.alerts ++ ["Error reading file"], fileInputValue := "" }
  | .emptyResult =>
      { s with alerts := s.alerts ++ ["Error reading file"] }
  | .loaded d =>
      { s with pdfDoc := some d, totalPages := d.numPages, pageNum := 1,
               scale := 1, rotation := 0 }
  | .loadError msg =>
      { s with alerts := s.alerts ++ ["Error loading PDF file: " ++ msg],
               fileInputValue := "", pdfDoc := none, totalPages := 0 }

/-- A value thrown by the URL load: either not an Error instance, or an Error
with a name and message. -/
inductive UrlThrown where
  | notError
  | jsError (name : String) (msg : String)
deriving DecidableEq, Repr

/-- The error-message classification in loadPdfFromUrl's catch block. -/
def urlErrorMessage (url : String) : UrlThrown → String
  | .notError => "Failed to load PDF from URL."
  | .jsError name msg =>
      if name = "MissingPDFException" then
        "File not found at URL: " ++ url ++ ". Or CORS issue."
      else if name = "UnexpectedResponseException" then
        "Unexpected server response from URL: " ++ url ++
          ". Check if the file exists and the server is configured correctly (CORS?)."
      else
        "Failed to load PDF from URL. " ++ msg

/-- Synchronous phase of loadPdfFromUrl: the in-flight guard and the state
written before awaiting getDocument.  Returns the new state and whether the
load was issued: `if (isLoadingUrl) return;` then set the loading flag, clear
urlError, clear pdfDoc, clear the file-input value. -/
def loadPdfFromUrlStart (s : ViewerState) : ViewerState × Bool :=
  if s.isLoadingUrl then (s, false)
  else
    ({ s with isLoadingUrl := true, urlError := none, pdfDoc := none,
              fileInputValue := "" }, true)

/-- Finish phase of loadPdfFromUrl: the getDocument outcome, then the finally
block clearing the loading flag.
Success: commit pdf, totalPages, page 1, scale 1.0, rotation 0.
Failure: set the classified urlError, clear pdfDoc and totalPages. -/
def loadPdfFromUrlFinish (s : ViewerState) (url : String)
    (r : Except UrlThrown Doc) : ViewerState :=
  match r with
  | .ok d =>
      { s with pdfDoc := some d, totalPages := d.numPages, pageNum := 1,
               scale := 1, rotation := 0, isLoadingUrl := false }
  | .error e =>
      { s with urlError := some (urlErrorMessage url e), pdfDoc := none,
               totalPages := 0, isLoadingUrl := false }

/-- The canvas DOM node: pixel dimensions and whether getContext succeeds. -/
structure Canvas where
  width : Rat
  height : Rat
  hasContext : Bool

/-- The text-layer overlay DOM node: CSS dimensions and its children. -/
structure TextLayer where
  width : Rat
  height : Rat
  content : List String

/-- A page handle from the library: getViewport as a function of scale and
rotation (width, height), and the outcomes of render and getTextContent. -/
structure PageH where
  getViewport : Rat → Int → Rat × Rat
  renderError : Option String
  textError : Option String
  textContent : List String

/-- The environment renderPage runs against: the two DOM refs and the outcome
of pdfDoc.getPage for the requested page. -/
structure RenderEnv where
  canvas : Option Canvas
  textLayer : Option TextLayer
  getPage : Except String PageH

/-- renderPage (extended variant): no-op without a document or without both
DOM targets; then getPage, getContext, viewport, canvas/text-layer resize and
clear, render, getTextContent, renderTextLayer; every thrown error is caught
and alerted.  Returns the component state and the two DOM nodes after the
call; the source contains no setState call, so the state component only ever
gains alerts. -/
def renderPage (s : ViewerState) (env : RenderEnv) :
    ViewerState × Option Canvas × Option TextLayer :=
  match s.pdfDoc with
  | none => (s, env.canvas, env.textLayer)
  | some _ =>
    match env.canvas, env.textLayer with
    | some canvas, some tl =>
      match env.getPage with
      | .error msg =>
          ({ s with alerts := s.alerts ++ ["Error rendering page: " ++ msg] },
           some canvas, some tl)
      | .ok page =>
          if canvas.hasContext then
            let vp := page.getViewport s.scale s.rotation
            let canvas2 : Canvas :=
              { canvas with width := vp.1, height := vp.2 }
            let tl2 : TextLayer := { width := vp.1, height := vp.2, content := [] }
            match page.renderError with
            | some msg =>
                ({ s with alerts := s.alerts ++ ["Error rendering page: " ++ msg] },
                 some canvas2, some tl2)
            | none =>
                match page.textError with
                | some msg =>
                    ({ s with alerts :=
                         s.alerts ++ ["Error rendering page: " ++ msg] },
                     some canvas2, some tl2)
                | none =>
                    (s, some canvas2, some { tl2 with content := page.textContent })
          else
            (s, some canvas, some tl)
    | c, t => (s, c, t)

/-- A user or library event driving the component. -/
inductive Event where
  | prevPage
  | nextPage
  | zoomIn
  | zoomOut
  | rotateCW
  | rotateCCW
  | fileSelect (f : Option FileSel)
  | fileResult (o : FileOutcome)
  | urlStart
  | urlResult (url : String) (r : Except UrlThrown Doc)
  | render (env : RenderEnv)

/-- One step of the component under an event. -/
def step (s : ViewerState) : Event → ViewerState
  | .prevPage => goToPrevPage s
  | .nextPage => goToNextPage s
  | .zoomIn => zoomIn s
  | .zoomOut => zoomOut s
  | .rotateCW => rotateClockwise s
  | .rotateCCW => rotateCounterClockwise s
  | .fileSelect f => (handleFileChangeStart s f).1
  | .fileResult o => handleFileChangeFinish s o
  | .urlStart => (loadPdfFromUrlStart s).1
  | .urlResult url r => loadPdfFromUrlFinish s url r
  | .render env => (renderPage s env).1

/-- Run a whole event trace. -/
def run (s : ViewerState) (es : List Event) : ViewerState := es.foldl step s

/-- Whether every document delivered by the event has at least one page
(true of every successfully parsed PDF). -/
def Event.docsOk : Event → Bool
  | .fileResult (.loaded d) => 1 ≤ d.numPages
  | .urlResult _ (.ok d) => 1 ≤ d.numPages
  | _ => true

/-- The loaded-document page invariant: whenever a document handle is
present, the current page lies in [1, totalPages]. -/
abbrev pageInv (s : ViewerState) : Prop :=
  s.pdfDoc ≠ none → 1 ≤ s.pageNum ∧ s.pageNum ≤ s.totalPages

/-- The scale invariant: scale lies in [0.25, 3.0]. -/
abbrev scaleInRange (q : Rat) : Prop := 1/4 ≤ q ∧ q ≤ 3

/-- A zoom button press. -/
inductive ZoomOp where
  | zin
  | zout
deriving DecidableEq, Repr

/-- Apply one zoom button press. -/
def applyZoom (s : ViewerState) : ZoomOp → ViewerState
  | .zin => zoomIn s
  | .zout => zoomOut s

/-- Run a sequence of zoom button presses. -/
def zoomRun (s : ViewerState) (ops : List ZoomOp) : ViewerState :=
  ops.foldl applyZoom s

/-- Concrete fixtures used to instantiate the theorems. -/
def doc3 : Doc := { id := 0, numPages := 3 }

def doc5 : Doc := { id := 1, numPages := 5 }

def pdfFile : FileSel := { type := "application/pdf" }

def txtFile : FileSel := { type := "text/plain" }

/-- A state with a loaded 3-page document on page 1. -/
def stLoaded3 : ViewerState :=
  { initState with pdfDoc := some doc3, totalPages := 3 }

/-- A state with a loaded 5-page document on page 2. -/
def stMid5 : ViewerState :=
  { initState with pdfDoc := some doc5, pageNum := 2, totalPages := 5,
                   fileInputValue := "a" }

/-- A state with a URL load in flight. -/
def stBusy : ViewerState := { initState with isLoadingUrl := true }

/-- A short concrete trace: load a 3-page document, go to the next page. -/
def trace1 : List Event :=
  [Event.fileResult (FileOutcome.loaded doc3), Event.nextPage]

/-- renderPage contains no setState call: the state it returns differs from
the input state at most in the alert list. -/
theorem renderPage_only_alerts (s : ViewerState) (env : RenderEnv) :
    ∃ a : List String, (renderPage s env).1 = { s with alerts := a } := by
  unfold renderPage
  repeat' split
  all_goals exact ⟨_, rfl⟩

/-- The synchronous phase of handleFileChange touches neither the document
handle nor any of the view-state fields. -/
theorem handleFileChangeStart_frame (s : ViewerState) (f : Option FileSel) :
    (handleFileChangeStart s f).1.pdfDoc = s.pdfDoc ∧
    (handleFileChangeStart s f).1.pageNum = s.pageNum ∧
    (handleFileChangeStart s f).1.totalPages = s.totalPages ∧
    (handleFileChangeStart s f).1.scale = s.scale ∧
    (handleFileChangeStart s f).1.rotation = s.rotation := by
  cases f with
  | none => exact ⟨rfl, rfl, rfl, rfl, rfl⟩
  | some g =>
      by_cases hg : g.type = "application/pdf" <;>
        simp [handleFileChangeStart, hg]

/-- Every event leaves the scale unchanged, resets it to 1, or applies one
of the two clamped zoom updates. -/
theorem step_scale_cases (s : ViewerState) (e : Event) :
    (step s e).scale = s.scale ∨ (step s e).scale = 1 ∨
    (step s e).scale = min (s.scale + 1/5) 3 ∨
    (step s e).scale = max (s.scale - 1/5) (1/4) := by
  cases e with
  | prevPage => left; simp only [step, goToPrevPage]; split <;> rfl
  | nextPage => left; simp only [step, goToNextPage]; split <;> rfl
  | zoomIn => right; right; left; rfl
  | zoomOut => right; right; right; rfl
  | rotateCW => left; rfl
  | rotateCCW => left; rfl
  | fileSelect f => left; exact (handleFileChangeStart_frame s f).2.2.2.1
  | fileResult o => cases o <;> simp [step, handleFileChangeFinish]
  | urlStart => left; simp only [step, loadPdfFromUrlStart]; split <;> rfl
  | urlResult url r => cases r <;> simp [step, loadPdfFromUrlFinish]
  | render env =>
      left
      obtain ⟨a, ha⟩ := renderPage_only_alerts s env
      simp only [step, ha]

/-- One event preserves the scale invariant. -/
theorem scale_range_step (s : ViewerState) (e : Event)
    (h : scaleInRange s.scale) : scaleInRange (step s e).scale := by
  rcases step_scale_cases s e with h1 | h1 | h1 | h1 <;> rw [h1]
  · exact h
  · constructor <;> norm_num
  · exact ⟨le_min (by linarith [h.1]) (by norm_num), min_le_right _ _⟩
  · exact ⟨le_max_right _ _, max_le (by linarith [h.2]) (by norm_num)⟩

/-- A whole event trace preserves the scale invariant. -/
theorem scale_range_run (es : List Event) :
    ∀ s : ViewerState, scaleInRange s.scale → scaleInRange (run s es).scale := by
  induction es with
  | nil => intro s h; exact h
  | cons e es ih => intro s h; exact ih (step s e) (scale_range_step s e h)

/-- One zoom button press preserves the scale invariant. -/
theorem scale_range_applyZoom (s : ViewerState) (op : ZoomOp)
    (h : scaleInRange s.scale) : scaleInRange (applyZoom s op).scale := by
  cases op with
  | zin => exact ⟨le_min (by linarith [h.1]) (by norm_num), min_le_right _ _⟩
  | zout => exact ⟨le_max_right _ _, max_le (by linarith [h.2]) (by norm_num)⟩

/-- A sequence of zoom button presses preserves the scale invariant. -/
theorem scale_range_zoomRun (ops : List ZoomOp) :
    ∀ s : ViewerState, scaleInRange s.scale →
      scaleInRange (zoomRun s ops).scale := by
  induction ops with
  | nil => intro s h; exact h
  | cons op ops ih =>
      intro s h; exact ih (applyZoom s op) (scale_range_applyZoom s op h)

/-- Every event leaves the rotation unchanged, resets it to 0, or applies
one of the two wrapped ±90 updates. -/
theorem step_rotation_cases (s : ViewerState) (e : Event) :
    (step s e).rotation = s.rotation ∨ (step s e).rotation = 0 ∨
    (step s e).rotation = (s.rotation + 90).tmod 360 ∨
    (step s e).rotation = (s.rotation - 90 + 360).tmod 360 := by
  cases e with
  | prevPage => left; simp only [step, goToPrevPage]; split <;> rfl
  | nextPage => left; simp only [step, goToNextPage]; split <;> rfl
  | zoomIn => left; rfl
  | zoomOut => left; rfl
  | rotateCW => right; right; left; rfl
  | rotateCCW => right; right; right; rfl
  | fileSelect f => left; exact (handleFileChangeStart_frame s f).2.2.2.2
  | fileResult o => cases o <;> simp [step, handleFileChangeFinish]
  | urlStart => left; simp only [step, loadPdfFromUrlStart]; split <;> rfl
  | urlResult url r => cases r <;> simp [step, loadPdfFromUrlFinish]
  | render env =>
      left
      obtain ⟨a, ha⟩ := renderPage_only_alerts s env
      simp only [step, ha]

/-- One event keeps the rotation in {0, 90, 180, 270}. -/
theorem rot_mem_step (s : ViewerState) (e : Event)
    (h : s.rotation ∈ ([0, 90, 180, 270] : List Int)) :
    (step s e).rotation ∈ ([0, 90, 180, 270] : List Int) := by
  have h2 : s.rotation = 0 ∨ s.rotation = 90 ∨ s.rotation = 180 ∨
      s.rotation = 270 := by simpa using h
  rcases step_rotation_cases s e with h1 | h1 | h1 | h1 <;> rw [h1]
  · exact h
  · decide
  · rcases h2 with h2 | h2 | h2 | h2 <;> rw [h2] <;> decide
  · rcases h2 with h2 | h2 | h2 | h2 <;> rw [h2] <;> decide

/-- A whole event trace keeps the rotation in {0, 90, 180, 270}. -/
theorem rot_mem_run (es : List Event) :
    ∀ s : ViewerState, s.rotation ∈ ([0, 90, 180, 270] : List Int) →
      (run s es).rotation ∈ ([0, 90, 180, 270] : List Int) := by
  induction es with
  | nil => intro s h; exact h
  | cons e es ih => intro s h; exact ih (step s e) (rot_mem_step s e h)

/-- One event preserves the loaded-document page invariant, provided any
document it delivers has at least one page. -/
theorem pageInv_step (s : ViewerState) (e : Event) (h : pageInv s)
    (hd : e.docsOk = true) : pageInv (step s e) := by
  cases e with
  | prevPage =>
      simp only [step, goToPrevPage]
      split
      · intro hdoc
        have hb := h hdoc
        have hgt : s.pageNum > 1 := by assumption
        constructor <;> simp <;> omega
      · exact h
  | nextPage =>
      simp only [step, goToNextPage]
      split
      · intro hdoc
        have hb := h hdoc
        have hlt : s.pageNum < s.totalPages := by assumption
        constructor <;> simp <;> omega
      · exact h
  | zoomIn => exact h
  | zoomOut => exact h
  | rotateCW => exact h
  | rotateCCW => exact h
  | fileSelect f =>
      simp only [step]
      obtain ⟨e1, e2, e3, _, _⟩ := handleFileChangeStart_frame s f
      intro hdoc
      rw [e1] at hdoc
      rw [e2, e3]
      exact h hdoc
  | fileResult o =>
      cases o with
      | readError => exact h
      | emptyResult => exact h
      | loaded d =>
          intro _
          exact ⟨le_refl 1, of_decide_eq_true hd⟩
      | loadError msg =>
          intro hdoc
          exact absurd rfl hdoc
  | urlStart =>
      simp only [step, loadPdfFromUrlStart]
      split
      · exact h
      · intro hdoc
        exact absurd rfl hdoc
  | urlResult url r =>
      cases r with
      | ok d =>
          intro _
          exact ⟨le_refl 1, of_decide_eq_true hd⟩
      | error e =>
          intro hdoc
          exact absurd rfl hdoc
  | render env =>
      obtain ⟨a, ha⟩ := renderPage_only_alerts s env
      simp only [step, ha]
      exact h

/-- A whole event trace preserves the loaded-document page invariant. -/
theorem pageInv_run (es : List Event) :
    ∀ s : ViewerState, pageInv s → (∀ e ∈ es, e.docsOk = true) →
      pageInv (run s es) := by
  induction es with
  | nil => intro s h _; exact h
  | cons e es ih =>
      intro s h hd
      exact ih (step s e) (pageInv_step s e h (hd e (by simp)))
        (fun x hx => hd x (by simp [hx]))

/-- C2: goToPrevPage is the identity exactly when the current page is 1 and
otherwise decrements it by 1; goToNextPage is the identity exactly when the
current page equals totalPages and otherwise increments it by 1 (stated on
the loaded-document regime 1 ≤ pageNum ≤ totalPages). -/
theorem claim2_prev_next_page_step (s : ViewerState)
    (h1 : 1 ≤ s.pageNum) (h2 : s.pageNum ≤ s.totalPages) :
    (s.pageNum = 1 → goToPrevPage s = s) ∧
    (s.pageNum ≠ 1 → goToPrevPage s = { s with pageNum := s.pageNum - 1 }) ∧
    (s.pageNum = s.totalPages → goToNextPage s = s) ∧
    (s.pageNum ≠ s.totalPages →
      goToNextPage s = { s with pageNum := s.pageNum + 1 }) := by
  refine ⟨?_, ?_, ?_, ?_⟩ <;> intro h
  · rw [goToPrevPage, if_neg (by omega)]
  · rw [goToPrevPage, if_pos (by omega)]
  · rw [goToNextPage, if_neg (by omega)]
  · rw [goToNextPage, if_pos (by omega)]

/-- Witness for C2 at a loaded 3-page document on page 1. -/
theorem claim2_prev_next_page_step_witness :
    goToPrevPage stLoaded3 = stLoaded3 ∧
    goToNextPage stLoaded3 = { stLoaded3 with pageNum := 2 } := by
  obtain ⟨p1, _, _, p4⟩ :=
    claim2_prev_next_page_step stLoaded3 (by decide) (by decide)
  refine ⟨p1 (by decide), ?_⟩
  rw [p4 (by decide)]
  decide

/-- C5: a successful load (file-based or URL-based) commits page 1,
scale 1.0, rotation 0, the new handle, and the document's page count. -/
theorem claim5_load_success_resets_view (s : ViewerState) (d : Doc)
    (url : String) :
    (handleFileChangeFinish s (FileOutcome.loaded d)).pageNum = 1 ∧
    (handleFileChangeFinish s (FileOutcome.loaded d)).scale = 1 ∧
    (handleFileChangeFinish s (FileOutcome.loaded d)).rotation = 0 ∧
    (handleFileChangeFinish s (FileOutcome.loaded d)).pdfDoc = some d ∧
    (handleFileChangeFinish s (FileOutcome.loaded d)).totalPages = d.numPages ∧
    (loadPdfFromUrlFinish s url (Except.ok d)).pageNum = 1 ∧
    (loadPdfFromUrlFinish s url (Except.ok d)).scale = 1 ∧
    (loadPdfFromUrlFinish s url (Except.ok d)).rotation = 0 ∧
    (loadPdfFromUrlFinish s url (Except.ok d)).pdfDoc = some d ∧
    (loadPdfFromUrlFinish s url (Except.ok d)).totalPages = d.numPages := by
  exact ⟨rfl, rfl, rfl, rfl, rfl, rfl, rfl, rfl, rfl, rfl⟩

/-- C9: renderPage never modifies the view-state store: document handle,
page number, totalPages, scale and rotation are unchanged by every
invocation, whichever branch (no document, missing DOM target, missing
context, page-fetch failure, render failure, text failure, success) runs. -/
theorem claim9_renderPage_frame (s : ViewerState) (env : RenderEnv) :
    (renderPage s env).1.pdfDoc = s.pdfDoc ∧
    (renderPage s env).1.pageNum = s.pageNum ∧
    (renderPage s env).1.totalPages = s.totalPages ∧
    (renderPage s env).1.scale = s.scale ∧
    (renderPage s env).1.rotation = s.rotation := by
  obtain ⟨a, ha⟩ := renderPage_only_alerts s env
  rw [ha]
  exact ⟨rfl, rfl, rfl, rfl, rfl⟩

/-- C3: over every event trace from the initial state the scale stays in
[0.25, 3.0]; from any scale in that range every zoom sequence keeps it in
range after each call; and each zoomIn/zoomOut changes the scale by exactly
+0.2 / -0.2 unless the result would leave the interval, in which case the
scale is clamped to the boundary. -/
theorem claim3_zoom_step_clamped :
    (∀ es : List Event, scaleInRange (run initState es).scale) ∧
    (∀ s : ViewerState, scaleInRange s.scale → ∀ ops : List ZoomOp,
        ∀ n : Nat, scaleInRange (zoomRun s (ops.take n)).scale) ∧
    (∀ s : ViewerState,
        (s.scale + 1/5 ≤ 3 → (zoomIn s).scale = s.scale + 1/5) ∧
        (3 < s.scale + 1/5 → (zoomIn s).scale = 3) ∧
        (1/4 ≤ s.scale - 1/5 → (zoomOut s).scale = s.scale - 1/5) ∧
        (s.scale - 1/5 < 1/4 → (zoomOut s).scale = 1/4)) := by
  refine ⟨?_, ?_, ?_⟩
  · intro es; exact scale_range_run es initState (by norm_num [initState, scaleInRange])
  · intro s h ops n; exact scale_range_zoomRun (ops.take n) s h
  · intro s
    refine ⟨fun h => ?_, fun h => ?_, fun h => ?_, fun h => ?_⟩
    · show min (s.scale + 1/5) 3 = s.scale + 1/5
      exact min_eq_left h
    · show min (s.scale + 1/5) 3 = 3
      exact min_eq_right (le_of_lt h)
    · show max (s.scale - 1/5) (1/4) = s.scale - 1/5
      exact max_eq_left h
    · show max (s.scale - 1/5) (1/4) = 1/4
      exact max_eq_right (le_of_lt h)

/-- Witness for C3: one zoomIn from a loaded state stays in range; zoomIn
from scale 1 adds exactly 0.2; zoomOut at scale 0.25 clamps to 0.25. -/
theorem claim3_zoom_step_clamped_witness :
    scaleInRange (zoomRun stLoaded3 ([ZoomOp.zin].take 1)).scale ∧
    (zoomIn initState).scale = initState.scale + 1/5 ∧
    (zoomOut { initState with scale := 1/4 }).scale = 1/4 := by
  obtain ⟨A, B, C⟩ := claim3_zoom_step_clamped
  exact ⟨B stLoaded3 (by norm_num [stLoaded3, initState, scaleInRange]) [ZoomOp.zin] 1,
         (C initState).1 (by norm_num [initState, scaleInRange]),
         (C { initState with scale := 1/4 }).2.2.2 (by norm_num [initState, scaleInRange])⟩

/-- C4: over every event trace from the initial state (rotation 0) the
rotation stays in {0, 90, 180, 270}; rotateClockwise adds exactly 90 modulo
360 and rotateCounterClockwise subtracts 90, adding 360 before the modulo. -/
theorem claim4_rotation_quantized :
    (∀ es : List Event,
        (run initState es).rotation ∈ ([0, 90, 180, 270] : List Int)) ∧
    (∀ s : ViewerState,
        (rotateClockwise s).rotation = (s.rotation + 90).tmod 360 ∧
        (rotateCounterClockwise s).rotation =
          (s.rotation - 90 + 360).tmod 360) := by
  refine ⟨?_, fun s => ⟨rfl, rfl⟩⟩
  intro es
  exact rot_mem_run es initState (by decide)

/-- C10: a failed file-based parse/load clears only the document handle and
totalPages; page number, scale and rotation keep their prior values. -/
theorem claim10_file_load_failure_frame (s : ViewerState) (msg : String) :
    (handleFileChangeFinish s (FileOutcome.loadError msg)).pdfDoc = none ∧
    (handleFileChangeFinish s (FileOutcome.loadError msg)).totalPages = 0 ∧
    (handleFileChangeFinish s (FileOutcome.loadError msg)).pageNum = s.pageNum ∧
    (handleFileChangeFinish s (FileOutcome.loadError msg)).scale = s.scale ∧
    (handleFileChangeFinish s (FileOutcome.loadError msg)).rotation =
      s.rotation := by
  exact ⟨rfl, rfl, rfl, rfl, rfl⟩

/-- C1: over every event trace from the initial state in which each loaded
document has at least one page, whenever the document handle is non-null the
current page lies in [1, totalPages]; and every successful load (file or
URL) commits page 1 together with the document's page count. -/
theorem claim1_page_always_in_bounds (es : List Event)
    (h : ∀ e ∈ es, e.docsOk = true) :
    pageInv (run initState es) ∧
    (∀ (s : ViewerState) (d : Doc),
        (handleFileChangeFinish s (FileOutcome.loaded d)).pageNum = 1 ∧
        (handleFileChangeFinish s (FileOutcome.loaded d)).totalPages =
          d.numPages) ∧
    (∀ (s : ViewerState) (url : String) (d : Doc),
        (loadPdfFromUrlFinish s url (Except.ok d)).pageNum = 1 ∧
        (loadPdfFromUrlFinish s url (Except.ok d)).totalPages = d.numPages) := by
  refine ⟨?_, fun s d => ⟨rfl, rfl⟩, fun s url d => ⟨rfl, rfl⟩⟩
  exact pageInv_run es initState (fun hdoc => absurd rfl hdoc) h

/-- Witness for C1 on the concrete trace load-3-pages-then-next-page. -/
theorem claim1_page_always_in_bounds_witness :
    (∀ e ∈ trace1, e.docsOk = true) ∧ pageInv (run initState trace1) :=
  ⟨by decide, (claim1_page_always_in_bounds trace1 (by decide)).1⟩

/-- C6: a file selection that is empty or has a non-PDF MIME type takes the
reject path: the alert is emitted, the file-input value is cleared, the
FileReader is not started, and the document handle, page, totalPages, scale
and rotation are unchanged. -/
theorem claim6_invalid_file_rejected (s : ViewerState) (f : Option FileSel)
    (h : ∀ g : FileSel, f = some g → g.type ≠ "application/pdf") :
    (handleFileChangeStart s f).1.alerts =
      s.alerts ++ ["Please select a valid PDF file"] ∧
    (handleFileChangeStart s f).1.fileInputValue = "" ∧
    (handleFileChangeStart s f).2 = false ∧
    (handleFileChangeStart s f).1.pdfDoc = s.pdfDoc ∧
    (handleFileChangeStart s f).1.pageNum = s.pageNum ∧
    (handleFileChangeStart s f).1.totalPages = s.totalPages ∧
    (handleFileChangeStart s f).1.scale = s.scale ∧
    (handleFileChangeStart s f).1.rotation = s.rotation := by
  cases f with
  | none => exact ⟨rfl, rfl, rfl, rfl, rfl, rfl, rfl, rfl⟩
  | some g =>
      have hg : g.type ≠ "application/pdf" := h g rfl
      simp [handleFileChangeStart, hg]

/-- Witness for C6 at a text/plain selection over a loaded state. -/
theorem claim6_invalid_file_rejected_witness :
    (handleFileChangeStart stMid5 (some txtFile)).1.pdfDoc = stMid5.pdfDoc ∧
    (handleFileChangeStart stMid5 (some txtFile)).1.fileInputValue = "" ∧
    (handleFileChangeStart stMid5 (some txtFile)).2 = false := by
  have h := claim6_invalid_file_rejected stMid5 (some txtFile)
    (fun g hg => by cases hg; decide)
  exact ⟨h.2.2.2.1, h.2.1, h.2.2.1⟩

/-- C7: a URL-load invocation while one is in flight is ignored (no load
issued, state untouched); otherwise the loading flag is set and the load is
issued; and the finish phase always clears the loading flag, on success and
on failure alike. -/
theorem claim7_url_load_guard (s : ViewerState) (url : String)
    (r : Except UrlThrown Doc) :
    (s.isLoadingUrl = true → loadPdfFromUrlStart s = (s, false)) ∧
    (s.isLoadingUrl = false →
        (loadPdfFromUrlStart s).2 = true ∧
        (loadPdfFromUrlStart s).1.isLoadingUrl = true) ∧
    (loadPdfFromUrlFinish s url r).isLoadingUrl = false := by
  refine ⟨?_, ?_, ?_⟩
  · intro hb
    simp [loadPdfFromUrlStart, hb]
  · intro hb
    simp [loadPdfFromUrlStart, hb]
  · cases r <;> rfl

/-- Witness for C7: the busy state ignores a second attempt; a failing load
ends with the loading flag cleared. -/
theorem claim7_url_load_guard_witness :
    loadPdfFromUrlStart stBusy = (stBusy, false) ∧
    (loadPdfFromUrlFinish stBusy "u"
        (Except.error UrlThrown.notError)).isLoadingUrl = false :=
  ⟨(claim7_url_load_guard stBusy "u" (Except.error UrlThrown.notError)).1 rfl,
   (claim7_url_load_guard stBusy "u" (Except.error UrlThrown.notError)).2.2⟩

/-- Counterexample to C8 as stated: with a 5-page document loaded, starting
a new file-based load leaves the handle in place, and starting a URL-based
load leaves totalPages uncleared — the handle is not discarded with
totalPages cleared before every new load. -/
theorem claim8_counterexample :
    (handleFileChangeStart stMid5 (some pdfFile)).2 = true ∧
    (handleFileChangeStart stMid5 (some pdfFile)).1.pdfDoc ≠ none ∧
    (loadPdfFromUrlStart stMid5).2 = true ∧
    (loadPdfFromUrlStart stMid5).1.totalPages ≠ 0 := by
  refine ⟨rfl, ?_, rfl, ?_⟩ <;> decide

/-- C8 amended: each successful load replaces the handle wholesale; on load
failure both loaders set the handle to null and clear totalPages to 0; the
URL loader sets the handle to null (totalPages untouched) before starting a
load, while the file loader leaves handle and totalPages in place until the
load settles. -/
theorem claim8_amended_doc_lifecycle (s : ViewerState) (d : Doc)
    (msg url : String) (e : UrlThrown) (f : FileSel) :
    (handleFileChangeFinish s (FileOutcome.loaded d)).pdfDoc = some d ∧
    (loadPdfFromUrlFinish s url (Except.ok d)).pdfDoc = some d ∧
    ((handleFileChangeFinish s (FileOutcome.loadError msg)).pdfDoc = none ∧
     (handleFileChangeFinish s (FileOutcome.loadError msg)).totalPages = 0) ∧
    ((loadPdfFromUrlFinish s url (Except.error e)).pdfDoc = none ∧
     (loadPdfFromUrlFinish s url (Except.error e)).totalPages = 0) ∧
    (s.isLoadingUrl = false →
        (loadPdfFromUrlStart s).1.pdfDoc = none ∧
        (loadPdfFromUrlStart s).1.totalPages = s.totalPages) ∧
    (f.type = "application/pdf" →
        (handleFileChangeStart s (some f)).1.pdfDoc = s.pdfDoc ∧
        (handleFileChangeStart s (some f)).1.totalPages = s.totalPages) := by
  refine ⟨rfl, rfl, ⟨rfl, rfl⟩, ⟨rfl, rfl⟩, ?_, ?_⟩
  · intro hb
    simp [loadPdfFromUrlStart, hb]
  · intro hf
    simp [handleFileChangeStart, hf]

/-- Witness for the amended C8 at the loaded 5-page state. -/
theorem claim8_amended_doc_lifecycle_witness :
    (loadPdfFromUrlStart stMid5).1.pdfDoc = none ∧
    (handleFileChangeStart stMid5 (some pdfFile)).1.pdfDoc = stMid5.pdfDoc := by
  have h := claim8_amended_doc_lifecycle stMid5 doc3 "m" "u"
    UrlThrown.notError pdfFile
  exact ⟨(h.2.2.2.2.1 rfl).1, (h.2.2.2.2.2 rfl).1⟩

end PdfViewer
